import Mathlib

/-!
Shallow embedding of `src/OCLStream.cpp` (BabelStream OpenCL backend).

Host-side values of the element type `T` (float or double) are modelled with
exact rationals `ℚ`; machine size types (`size_t`, `cl_ulong`) are modelled
with `Nat`, and the C `int` device index with `Int`, converted through the
usual arithmetic conversion to the 64-bit unsigned `size_t` where the source
compares the two.
-/

/-- Modelled from the spec: `WGSIZE`, the fixed work-group size constant, is
defined in `OCLStream.h`, which is not part of the available sources; the
spec's concrete scenario (§8) fixes it at 64. -/
def WGSIZE : Nat := 64

/-- The element type selected at template instantiation:
`OCLStream<float>` or `OCLStream<double>`. -/
inductive FType where
  | float
  | double
deriving DecidableEq, Repr

/-- `sizeof(T)` in bytes. -/
def sizeofT : FType → Nat
  | .float => 4
  | .double => 8

/-- Outcome of `cl::Program::build` for a device: success, or a thrown
`cl::Error` carrying an error code, with the device's build log available
through `getBuildInfo<CL_PROGRAM_BUILD_LOG>`. -/
inductive BuildOutcome where
  | ok
  | err (code : Int) (log : String)

/-- The OpenCL error code `CL_BUILD_PROGRAM_FAILURE`. -/
def CL_BUILD_PROGRAM_FAILURE : Int := -11

/-- An OpenCL device as the source queries it: `CL_DEVICE_NAME`,
`CL_DRIVER_VERSION`, `CL_DEVICE_GLOBAL_MEM_SIZE`,
`CL_DEVICE_MAX_MEM_ALLOC_SIZE`, `CL_DEVICE_DOUBLE_FP_CONFIG` (a bitfield,
`0` meaning no double support), and the outcome `cl::Program::build` would
have on it for each `-DTYPE=` option. -/
structure Device where
  name : String
  driver : String
  globalMemSize : Nat
  maxAllocSize : Nat
  doubleFPConfig : Nat
  build : FType → BuildOutcome

/-- Placeholder device used only for total list indexing after a bounds
check has already been performed. -/
def defaultDevice : Device :=
  { name := "", driver := "", globalMemSize := 0, maxAllocSize := 0,
    doubleFPConfig := 0, build := fun _ => .ok }

/-- The two file-scope globals of `OCLStream.cpp`:
`bool cached` and `std::vector<cl::Device> devices`. -/
structure CatalogState where
  cached : Bool
  devices : List Device
deriving Inhabited

/-- The environment `cl::Platform::get` reports: each platform's device
list in order. -/
abbrev Platforms := List (List Device)

/-- `getDeviceList()`: queries every platform and appends all its devices to
the end of the global `devices` vector, then sets `cached = true`. -/
def getDeviceList (platforms : Platforms) (s : CatalogState) : CatalogState :=
  { cached := true, devices := s.devices ++ platforms.flatten }

/-- The call-site idiom `if (!cached) getDeviceList();` used by the
`OCLStream` constructor, `getDeviceName` and `getDeviceDriver`. -/
def ensureDeviceList (platforms : Platforms) (s : CatalogState) : CatalogState :=
  if s.cached then s else getDeviceList platforms s

/-- `listDevices()`: calls `getDeviceList()` unconditionally (no `cached`
guard), then prints an index/name line per device (or a "No devices found."
message). We return the new global state together with the printed lines. -/
def listDevices (platforms : Platforms) (s : CatalogState) : CatalogState × List String :=
  let s1 := getDeviceList platforms s
  if s1.devices.length = 0 then
    (s1, ["No devices found."])
  else
    (s1, (List.range s1.devices.length).map
      (fun i => toString i ++ ": " ++ (s1.devices.getD i defaultDevice).name))

/-- Conversion of the C `int` index to `size_t` performed implicitly by the
comparisons `device_index >= devices.size()` and `device < devices.size()`:
the signed value is reduced modulo 2^64. -/
def usize (i : Int) : Nat := (i % (2 ^ 64 : Int)).toNat

/-- `getDeviceName(device)`: ensures the catalog is populated, returns the
device's `CL_DEVICE_NAME` if `device < devices.size()` and otherwise throws
`std::runtime_error("Error asking for name for non-existant device")`. -/
def getDeviceName (platforms : Platforms) (s : CatalogState) (device : Int) :
    CatalogState × Except String String :=
  let s1 := ensureDeviceList platforms s
  if usize device < s1.devices.length then
    (s1, .ok (s1.devices.getD (usize device) defaultDevice).name)
  else
    (s1, .error "Error asking for name for non-existant device")

/-- `getDeviceDriver(device)`: as `getDeviceName` but for `CL_DRIVER_VERSION`. -/
def getDeviceDriver (platforms : Platforms) (s : CatalogState) (device : Int) :
    CatalogState × Except String String :=
  let s1 := ensureDeviceList platforms s
  if usize device < s1.devices.length then
    (s1, .ok (s1.devices.getD (usize device) defaultDevice).driver)
  else
    (s1, .error "Error asking for driver for non-existant device")

/-- The named kernel-source constant `constant TYPE scalar = 0.3;`. -/
def scalar : ℚ := 3 / 10

/-- Write performed by one kernel launch over `n` global work-items into a
device buffer: index `i < n` receives `f i` (work-item `i`'s store), indices
beyond the launch range keep their old contents. -/
def kernelWrite (n : Nat) (f : Nat → ℚ) (old : List ℚ) : List ℚ :=
  (List.range old.length).map (fun i => if i < n then f i else old.getD i 0)

/-- `cl::copy(queue, src.begin(), src.end(), buffer)`: overwrites the first
`src.size()` elements of the device buffer, leaving the rest unchanged. -/
def hostWrite (src dst : List ℚ) : List ℚ :=
  (List.range dst.length).map
    (fun i => if i < src.length then src.getD i 0 else dst.getD i 0)

/-- One halving step of the `stream_dot` local reduction loop body:
`if (local_i < offset) wg_sum[local_i] += wg_sum[local_i+offset];`
performed by every lane after the barrier. -/
def wgStep (w : Nat → ℚ) (offset : Nat) : Nat → ℚ :=
  fun l => if l < offset then w l + w (l + offset) else w l

/-- The `stream_dot` loop
`for (int offset = get_local_size(0)/2; offset > 0; offset /= 2)` as a
fuel-indexed iteration; the offset strictly decreases, so any
`fuel > offset` runs the loop to completion. -/
def wgLoop : Nat → (Nat → ℚ) → Nat → (Nat → ℚ)
  | 0, w, _ => w
  | fuel + 1, w, offset =>
      if offset = 0 then w else wgLoop fuel (wgStep w offset) (offset / 2)

/-- The partial sum the `stream_dot` kernel stores into `sum[group_id]`:
lane `l` of group `g` fills `wg_sum[l] = a[g*WGSIZE+l] * b[g*WGSIZE+l]`, the
tree loop runs from offset `WGSIZE/2` down, and lane 0 stores `wg_sum[0]`. -/
def stream_dot_group (a b : Nat → ℚ) (g : Nat) : ℚ :=
  wgLoop WGSIZE (fun l => a (g * WGSIZE + l) * b (g * WGSIZE + l)) (WGSIZE / 2) 0

/-- The device-visible state of one `OCLStream<T>` engine: the element count
and the four device buffers plus the host partial-sum vector `sums`. -/
structure OCLStream where
  array_size : Nat
  d_a : List ℚ
  d_b : List ℚ
  d_c : List ℚ
  d_sum : List ℚ
  sums : List ℚ

/-- `OCLStream<T>::copy()`: launches `copy` over `array_size` work-items,
`c[i] = a[i]`. -/
def OCLStream.copy (s : OCLStream) : OCLStream :=
  { s with d_c := kernelWrite s.array_size (fun i => s.d_a.getD i 0) s.d_c }

/-- `OCLStream<T>::mul()`: launches `mul` over `array_size` work-items,
`b[i] = scalar * c[i]`. -/
def OCLStream.mul (s : OCLStream) : OCLStream :=
  { s with d_b := kernelWrite s.array_size (fun i => scalar * s.d_c.getD i 0) s.d_b }

/-- `OCLStream<T>::add()`: launches `add` over `array_size` work-items,
`c[i] = a[i] + b[i]`. -/
def OCLStream.add (s : OCLStream) : OCLStream :=
  { s with d_c := kernelWrite s.array_size (fun i => s.d_a.getD i 0 + s.d_b.getD i 0) s.d_c }

/-- `OCLStream<T>::triad()`: launches `triad` over `array_size` work-items,
`a[i] = b[i] + scalar * c[i]`. -/
def OCLStream.triad (s : OCLStream) : OCLStream :=
  { s with d_a := kernelWrite s.array_size (fun i => s.d_b.getD i 0 + scalar * s.d_c.getD i 0) s.d_a }

/-- `OCLStream<T>::dot()`: launches `stream_dot` over `array_size` work-items
in groups of `WGSIZE` (so `array_size / WGSIZE` groups), copies the device
`d_sum` buffer into the host `sums` vector, and finishes with
`T sum = 0.0; for (T val : sums) sum += val;`. Returns the scalar together
with the engine state after the call. -/
def OCLStream.dot (s : OCLStream) : ℚ × OCLStream :=
  let numGroups := s.array_size / WGSIZE
  let partials := (List.range numGroups).map
    (stream_dot_group (fun i => s.d_a.getD i 0) (fun i => s.d_b.getD i 0))
  let total := partials.foldl (· + ·) 0
  (total, { s with d_sum := partials, sums := partials })

/-- `OCLStream<T>::write_arrays(a, b, c)`: blocking `cl::copy` of each host
vector into the matching device buffer. -/
def OCLStream.write_arrays (s : OCLStream) (a b c : List ℚ) : OCLStream :=
  { s with d_a := hostWrite a s.d_a, d_b := hostWrite b s.d_b, d_c := hostWrite c s.d_c }

/-- `OCLStream<T>::read_arrays(a, b, c)`: blocking `cl::copy` of each device
buffer back to the host; modelled as returning the three buffer contents. -/
def OCLStream.read_arrays (s : OCLStream) : List ℚ × List ℚ × List ℚ :=
  (s.d_a, s.d_b, s.d_c)

/-- Observable side effects of the constructor, in program order: a line
printed to the console (including a build log dump), an attempted
`program.build`, or a `cl::Buffer` allocation of a byte size. -/
inductive Event where
  | print (line : String)
  | buildAttempt (t : FType)
  | alloc (bytes : Nat)
deriving DecidableEq

/-- The exceptions the `OCLStream` constructor can propagate:
`std::runtime_error`s with their exact message, or a rethrown / escaping
`cl::Error` carrying its OpenCL error code. -/
inductive CtorError where
  | invalidDevice
  | noDouble
  | cannotAlloc
  | notEnoughMem
  | clError (code : Int)
deriving DecidableEq

/-- The message of each `std::runtime_error` thrown by the constructor
(a `cl::Error` carries a code, not a message). -/
def CtorError.message : CtorError → String
  | .invalidDevice => "Invalid device index"
  | .noDouble => "Device does not support double precision, please use --float"
  | .cannotAlloc => "Device cannot allocate a buffer big enough"
  | .notEnoughMem => "Device does not have enough memory for all 3 buffers"
  | .clError _ => ""

/-- Result of running the constructor: the catalog globals afterwards, the
ordered side effects that happened before return or throw, and either the
constructed engine state or the escaping exception. -/
structure CtorResult where
  catalog : CatalogState
  events : List Event
  result : Except CtorError OCLStream

/-- The tail of the constructor after the build phase: the
`CL_DEVICE_MAX_MEM_ALLOC_SIZE` / `CL_DEVICE_GLOBAL_MEM_SIZE` checks, then
the four `cl::Buffer` allocations and the host `sums` vector. -/
def constructTail (s1 : CatalogState) (d : Device) (ARRAY_SIZE : Nat)
    (T : FType) (ev : List Event) : CtorResult :=
  if d.maxAllocSize < sizeofT T * ARRAY_SIZE then
    ⟨s1, ev, .error .cannotAlloc⟩
  else if d.globalMemSize < 3 * (sizeofT T * ARRAY_SIZE) then
    ⟨s1, ev, .error .notEnoughMem⟩
  else
    ⟨s1,
     ev ++ [.alloc (sizeofT T * ARRAY_SIZE), .alloc (sizeofT T * ARRAY_SIZE),
            .alloc (sizeofT T * ARRAY_SIZE),
            .alloc (sizeofT T * (ARRAY_SIZE / WGSIZE))],
     .ok { array_size := ARRAY_SIZE,
           d_a := List.replicate ARRAY_SIZE 0,
           d_b := List.replicate ARRAY_SIZE 0,
           d_c := List.replicate ARRAY_SIZE 0,
           d_sum := List.replicate (ARRAY_SIZE / WGSIZE) 0,
           sums := List.replicate (ARRAY_SIZE / WGSIZE) 0 }⟩

/-- `OCLStream<T>::OCLStream(ARRAY_SIZE, device_index)`: ensures the device
list is cached, bounds-checks `device_index` against it, prints the device
name and driver, runs the double-precision check and the build for the
instantiated element type (the 64-bit path catches a `cl::Error`, prints
the build log and rethrows only when the code is
`CL_BUILD_PROGRAM_FAILURE`, swallowing any other `cl::Error`; the 32-bit
path builds with no handler), then validates memory and allocates. -/
def construct (platforms : Platforms) (s0 : CatalogState) (ARRAY_SIZE : Nat)
    (device_index : Int) (T : FType) : CtorResult :=
  let s1 := ensureDeviceList platforms s0
  if s1.devices.length ≤ usize device_index then
    ⟨s1, [], .error .invalidDevice⟩
  else
    let d := s1.devices.getD (usize device_index) defaultDevice
    let ev0 : List Event :=
      [.print ("Using OpenCL device " ++ d.name), .print ("Driver: " ++ d.driver)]
    match T with
    | .double =>
        if d.doubleFPConfig = 0 then
          ⟨s1, ev0, .error .noDouble⟩
        else
          match d.build .double with
          | .ok => constructTail s1 d ARRAY_SIZE .double (ev0 ++ [.buildAttempt .double])
          | .err code log =>
              if code = CL_BUILD_PROGRAM_FAILURE then
                ⟨s1, ev0 ++ [.buildAttempt .double, .print log], .error (.clError code)⟩
              else
                constructTail s1 d ARRAY_SIZE .double (ev0 ++ [.buildAttempt .double])
    | .float =>
        match d.build .float with
        | .ok => constructTail s1 d ARRAY_SIZE .float (ev0 ++ [.buildAttempt .float])
        | .err code _ =>
            ⟨s1, ev0 ++ [.buildAttempt .float], .error (.clError code)⟩

/-! ### Helper lemmas -/

theorem hostWrite_eq_of_length {src dst : List ℚ} (h : src.length = dst.length) :
    hostWrite src dst = src := by
  apply List.ext_getElem
  · simp [hostWrite, h]
  · intro i h1 h2
    simp only [hostWrite, List.length_map, List.length_range] at h1
    simp [hostWrite, List.getElem_map, List.getElem_range, h ▸ h1,
      List.getD_eq_getElem src 0 h2]

theorem kernelWrite_eq_map {n : Nat} {f : Nat → ℚ} {old : List ℚ}
    (h : old.length = n) : kernelWrite n f old = (List.range n).map f := by
  unfold kernelWrite
  rw [h]
  apply List.map_congr_left
  intro i hi
  rw [if_pos (List.mem_range.mp hi)]

theorem map_range_getD {C : List ℚ} {n : Nat} (h : C.length = n) (g : ℚ → ℚ) :
    (List.range n).map (fun i => g (C.getD i 0)) = C.map g := by
  apply List.ext_getElem
  · simp [h]
  · intro i h1 h2
    simp only [List.length_map, List.length_range] at h1
    simp only [List.getElem_map, List.getElem_range]
    rw [List.getD_eq_getElem C 0 (h ▸ h1)]

theorem map_range_getD_two {B C : List ℚ} {n : Nat} (hB : B.length = n)
    (hC : C.length = n) (g : ℚ → ℚ → ℚ) :
    (List.range n).map (fun i => g (B.getD i 0) (C.getD i 0)) =
      List.zipWith g B C := by
  apply List.ext_getElem
  · simp [hB, hC]
  · intro i h1 h2
    simp only [List.length_map, List.length_range] at h1
    simp only [List.getElem_map, List.getElem_range, List.getElem_zipWith]
    rw [List.getD_eq_getElem B 0 (hB ▸ h1), List.getD_eq_getElem C 0 (hC ▸ h1)]

theorem foldl_add_eq_sum (l : List ℚ) (x : ℚ) : l.foldl (· + ·) x = x + l.sum := by
  induction l generalizing x with
  | nil => simp
  | cons y l ih => simp [ih, add_assoc]

theorem list_sum_map_range (n : Nat) (f : Nat → ℚ) :
    ((List.range n).map f).sum = ∑ i in Finset.range n, f i := by
  induction n with
  | zero => simp
  | succ n ih => rw [List.range_succ, List.map_append, List.sum_append,
      Finset.sum_range_succ, ih]; simp

theorem wgLoop_zero_offset (fuel : Nat) (w : Nat → ℚ) : wgLoop fuel w 0 = w := by
  cases fuel <;> simp [wgLoop]

theorem wgLoop_two_pow (j : Nat) :
    ∀ (fuel : Nat) (w : Nat → ℚ), j < fuel →
      wgLoop fuel w (2 ^ j) 0 = ∑ l in Finset.range (2 ^ (j + 1)), w l := by
  induction j with
  | zero =>
      intro fuel w hf
      obtain ⟨f, rfl⟩ : ∃ f, fuel = f + 1 := ⟨fuel - 1, by omega⟩
      simp [wgLoop, wgLoop_zero_offset, wgStep, Finset.sum_range_succ]
  | succ j ih =>
      intro fuel w hf
      obtain ⟨f, rfl⟩ : ∃ f, fuel = f + 1 := ⟨fuel - 1, by omega⟩
      have hne : (2 : Nat) ^ (j + 1) ≠ 0 := by positivity
      have hdiv : 2 ^ (j + 1) / 2 = 2 ^ j := by
        rw [pow_succ, Nat.mul_div_cancel _ (by norm_num)]
      rw [wgLoop, if_neg hne, hdiv, ih f _ (by omega)]
      have hsplit : ∀ l ∈ Finset.range (2 ^ (j + 1)),
          wgStep w (2 ^ (j + 1)) l = w l + w (l + 2 ^ (j + 1)) := by
        intro l hl
        exact if_pos (Finset.mem_range.mp hl)
      rw [Finset.sum_congr rfl hsplit, Finset.sum_add_distrib]
      have : (2 : Nat) ^ (j + 1 + 1) = 2 ^ (j + 1) + 2 ^ (j + 1) := by ring
      rw [this, Finset.sum_range_add]
      congr 1
      exact Finset.sum_congr rfl (fun l _ => by rw [Nat.add_comm])

theorem stream_dot_group_eq_sum (a b : Nat → ℚ) (g : Nat) :
    stream_dot_group a b g =
      ∑ l in Finset.range WGSIZE, a (g * WGSIZE + l) * b (g * WGSIZE + l) := by
  have h32 : WGSIZE / 2 = 2 ^ 5 := by norm_num [WGSIZE]
  have h64 : WGSIZE = 2 ^ (5 + 1) := by norm_num [WGSIZE]
  rw [stream_dot_group, h32, wgLoop_two_pow 5 WGSIZE _ (by norm_num [WGSIZE]), ← h64]

theorem sum_grouped (m W : Nat) (f : Nat → ℚ) :
    ∑ g in Finset.range m, ∑ l in Finset.range W, f (g * W + l) =
      ∑ i in Finset.range (m * W), f i := by
  induction m with
  | zero => simp
  | succ m ih =>
      rw [Finset.sum_range_succ, ih, Nat.succ_mul, Finset.sum_range_add]

theorem hostWrite_length (src dst : List ℚ) : (hostWrite src dst).length = dst.length := by
  simp [hostWrite]

/-! ### Claim theorems about the benchmark operations -/

/-- C1: for every array_size divisible by WGSIZE and vectors A, B of length
array_size written to the device, `dot()` — the two-level reduction: a
per-work-group tree sum of WGSIZE products followed by a host-side linear
sum of the `array_size / WGSIZE` partial sums — returns exactly the sum of
the element-wise products `A[i]*B[i]` (exact rational arithmetic, so the
relative-tolerance bound holds trivially). -/
theorem dot_two_level_reduction (A B C : List ℚ) (s : OCLStream)
    (hA : A.length = s.array_size) (hB : B.length = s.array_size)
    (ha : s.d_a.length = s.array_size) (hb : s.d_b.length = s.array_size)
    (hdvd : WGSIZE ∣ s.array_size) :
    ((s.write_arrays A B C).dot).1 =
      ∑ i in Finset.range s.array_size, A.getD i 0 * B.getD i 0 := by
  have hda : hostWrite A s.d_a = A := hostWrite_eq_of_length (hA.trans ha.symm)
  have hdb : hostWrite B s.d_b = B := hostWrite_eq_of_length (hB.trans hb.symm)
  simp only [OCLStream.write_arrays, OCLStream.dot, hda, hdb]
  rw [foldl_add_eq_sum, zero_add, list_sum_map_range]
  rw [Finset.sum_congr rfl
    (fun g _ => stream_dot_group_eq_sum (fun i => A.getD i 0) (fun i => B.getD i 0) g)]
  have hg := sum_grouped (s.array_size / WGSIZE) WGSIZE
    (fun i => A.getD i 0 * B.getD i 0)
  rw [Nat.div_mul_cancel hdvd] at hg
  exact hg

theorem dot_two_level_reduction_witness :
    ((OCLStream.write_arrays
        ⟨64, List.replicate 64 0, List.replicate 64 0, [], [], []⟩
        (List.replicate 64 1) (List.replicate 64 2) []).dot).1 =
      ∑ i in Finset.range 64,
        (List.replicate 64 (1 : ℚ)).getD i 0 * (List.replicate 64 (2 : ℚ)).getD i 0 :=
  dot_two_level_reduction (List.replicate 64 1) (List.replicate 64 2) []
    ⟨64, List.replicate 64 0, List.replicate 64 0, [], [], []⟩
    rfl rfl rfl rfl (by decide)

/-- C7: after writing C into the `c` buffer and calling `mul()`,
`read_arrays` yields `b` with `b[i] = scalar * C[i]` for every index,
where `scalar` is the kernel source's named constant 0.3. -/
theorem mul_writes_scaled_c (A B C : List ℚ) (s : OCLStream)
    (hC : C.length = s.array_size) (hb : s.d_b.length = s.array_size)
    (hc : s.d_c.length = s.array_size) :
    ((s.write_arrays A B C).mul).read_arrays.2.1 = C.map (fun x => scalar * x) := by
  have hdc : hostWrite C s.d_c = C := hostWrite_eq_of_length (hC.trans hc.symm)
  simp only [OCLStream.write_arrays, OCLStream.mul, OCLStream.read_arrays, hdc]
  rw [kernelWrite_eq_map ((hostWrite_length B s.d_b).trans hb)]
  exact map_range_getD hC (fun x => scalar * x)

theorem mul_writes_scaled_c_witness :
    ((OCLStream.write_arrays ⟨2, [], [5, 6], [7, 8], [], []⟩ [] [] [1, 2]).mul).read_arrays.2.1 =
      List.map (fun x => scalar * x) [1, 2] :=
  mul_writes_scaled_c [] [] [1, 2] ⟨2, [], [5, 6], [7, 8], [], []⟩ rfl rfl rfl

/-- C8: after writing B and C into the `b` and `c` buffers and calling
`triad()`, `read_arrays` yields `a` with `a[i] = B[i] + 0.3 * C[i]` for
every index. -/
theorem triad_writes_b_plus_scaled_c (A B C : List ℚ) (s : OCLStream)
    (hB : B.length = s.array_size) (hC : C.length = s.array_size)
    (ha : s.d_a.length = s.array_size) (hb : s.d_b.length = s.array_size)
    (hc : s.d_c.length = s.array_size) :
    ((s.write_arrays A B C).triad).read_arrays.1 =
      List.zipWith (fun x y => x + scalar * y) B C := by
  have hdb : hostWrite B s.d_b = B := hostWrite_eq_of_length (hB.trans hb.symm)
  have hdc : hostWrite C s.d_c = C := hostWrite_eq_of_length (hC.trans hc.symm)
  simp only [OCLStream.write_arrays, OCLStream.triad, OCLStream.read_arrays, hdb, hdc]
  rw [kernelWrite_eq_map ((hostWrite_length A s.d_a).trans ha)]
  exact map_range_getD_two hB hC (fun x y => x + scalar * y)

theorem triad_writes_b_plus_scaled_c_witness :
    ((OCLStream.write_arrays ⟨2, [9, 9], [9, 9], [9, 9], [], []⟩ [] [1, 2] [4, 8]).triad).read_arrays.1 =
      List.zipWith (fun x y => x + scalar * y) [1, 2] [4, 8] :=
  triad_writes_b_plus_scaled_c [] [1, 2] [4, 8] ⟨2, [9, 9], [9, 9], [9, 9], [], []⟩
    rfl rfl rfl rfl rfl

/-- C9: each operation writes only its destination: `copy` leaves `a` and
`b` unchanged, `mul` leaves `a` and `c`, `add` leaves `a` and `b`, `triad`
leaves `b` and `c`, and `dot` (which updates only the sum buffer and the
host partial-sum vector) leaves `a`, `b` and `c` unchanged. -/
theorem operations_frame (s : OCLStream) :
    (s.copy).d_a = s.d_a ∧ (s.copy).d_b = s.d_b ∧
    (s.mul).d_a = s.d_a ∧ (s.mul).d_c = s.d_c ∧
    (s.add).d_a = s.d_a ∧ (s.add).d_b = s.d_b ∧
    (s.triad).d_b = s.d_b ∧ (s.triad).d_c = s.d_c ∧
    (s.dot).2.d_a = s.d_a ∧ (s.dot).2.d_b = s.d_b ∧ (s.dot).2.d_c = s.d_c :=
  ⟨rfl, rfl, rfl, rfl, rfl, rfl, rfl, rfl, rfl, rfl, rfl⟩

/-! ### Concrete devices used as test inputs -/

/-- A minimal concrete device. -/
def d0 : Device :=
  { name := "CPU", driver := "2.0", globalMemSize := 0, maxAllocSize := 0,
    doubleFPConfig := 0, build := fun _ => .ok }

/-- A device whose program build always fails with a build log. -/
def logDevice : Device :=
  { name := "Dev", driver := "1.0", globalMemSize := 2 ^ 32,
    maxAllocSize := 2 ^ 30, doubleFPConfig := 1,
    build := fun _ => .err CL_BUILD_PROGRAM_FAILURE "KERNEL BUILD LOG" }

/-- A device with ample memory, double support and a succeeding build. -/
def bigDevice : Device :=
  { name := "GPU", driver := "3.0", globalMemSize := 2 ^ 40,
    maxAllocSize := 2 ^ 38, doubleFPConfig := 1, build := fun _ => .ok }

/-- A device with ample memory but no double-precision support. -/
def noFP64Device : Device :=
  { name := "iGPU", driver := "4.0", globalMemSize := 2 ^ 40,
    maxAllocSize := 2 ^ 38, doubleFPConfig := 0, build := fun _ => .ok }

/-! ### C2: enumeration idempotence -/

/-- C2 counterexample: with one platform holding one device, after the
catalog has been populated once, a `listDevices()` call re-runs
`getDeviceList()` unconditionally and appends the platform's device again,
so the cached device sequence changes — refuting the claim that every
subsequent enumeration (including the device-listing operation) leaves it
unchanged. -/
theorem enumeration_not_idempotent_cex :
    (getDeviceList [[d0]] ⟨false, []⟩).cached = true ∧
    (listDevices [[d0]] (getDeviceList [[d0]] ⟨false, []⟩)).1.devices ≠
      (getDeviceList [[d0]] ⟨false, []⟩).devices := by
  refine ⟨rfl, fun h => ?_⟩
  have hl := congrArg List.length h
  simp [listDevices, getDeviceList] at hl

/-- C2 amended: enumeration through the `cached` guard (the path used by
engine construction and the name/driver lookups) is a no-op once the
catalog is populated; the device-listing operation instead re-runs
enumeration unconditionally, appending every platform's devices to the
cached sequence again on each call. -/
theorem guarded_enumeration_idempotent (platforms : Platforms)
    (s : CatalogState) (h : s.cached = true) :
    ensureDeviceList platforms s = s ∧
    (listDevices platforms s).1.devices = s.devices ++ platforms.flatten := by
  refine ⟨by simp [ensureDeviceList, h], ?_⟩
  simp only [listDevices]
  split <;> rfl

theorem guarded_enumeration_idempotent_witness :
    ensureDeviceList [[d0]] ⟨true, [d0]⟩ = ⟨true, [d0]⟩ ∧
    (listDevices [[d0]] ⟨true, [d0]⟩).1.devices = [d0] ++ [[d0]].flatten :=
  guarded_enumeration_idempotent [[d0]] ⟨true, [d0]⟩ rfl

/-! ### Constructor helper lemmas -/

theorem construct_build_ok (platforms : Platforms) (s0 : CatalogState)
    (N : Nat) (i : Int) (T : FType) (d : Device)
    (hidx : usize i < (ensureDeviceList platforms s0).devices.length)
    (hd : (ensureDeviceList platforms s0).devices.getD (usize i) defaultDevice = d)
    (hfp : T = .double → d.doubleFPConfig ≠ 0)
    (hbuild : d.build T = .ok) :
    construct platforms s0 N i T =
      constructTail (ensureDeviceList platforms s0) d N T
        [.print ("Using OpenCL device " ++ d.name),
         .print ("Driver: " ++ d.driver), .buildAttempt T] := by
  have h1 : ¬ ((ensureDeviceList platforms s0).devices.length ≤ usize i) := by omega
  cases T with
  | double =>
      simp only [construct]
      rw [if_neg h1, hd, if_neg (hfp rfl), hbuild]
      rfl
  | float =>
      simp only [construct]
      rw [if_neg h1, hd, hbuild]
      rfl

theorem constructTail_result_not_noDouble (s1 : CatalogState) (d : Device)
    (N : Nat) (T : FType) (ev : List Event) :
    (constructTail s1 d N T ev).result ≠ .error .noDouble := by
  unfold constructTail
  split
  · simp
  · split <;> simp

theorem construct_float_not_noDouble (q : Platforms) (r : CatalogState)
    (M : Nat) (j : Int) :
    (construct q r M j .float).result ≠ .error .noDouble := by
  simp only [construct]
  split
  · simp
  · split
    · exact constructTail_result_not_noDouble _ _ _ _ _
    · simp

/-! ### C3: build failure diagnostics -/

/-- C3 counterexample: on a device whose 32-bit build fails with a build
log, `OCLStream<float>` construction fails with the escaping
`cl::Error(CL_BUILD_PROGRAM_FAILURE)`, but the build log is never surfaced
(the only console output is the device name and driver lines) — refuting
the claim that for both element widths the failure carries the
compiler/build diagnostic log. -/
theorem build_failure_log_cex :
    (construct [[logDevice]] ⟨false, []⟩ 8 0 .float).result =
      .error (.clError CL_BUILD_PROGRAM_FAILURE) ∧
    Event.print "KERNEL BUILD LOG" ∉
      (construct [[logDevice]] ⟨false, []⟩ 8 0 .float).events := by
  exact ⟨rfl, by decide⟩

/-- C3 amended: if kernel compilation fails with
`CL_BUILD_PROGRAM_FAILURE`, construction fails with the escaping
`cl::Error`; on the 64-bit path the constructor prints the build
diagnostic log before rethrowing, while on the 32-bit path the error
propagates with no log surfaced (the only output being the device name and
driver lines). -/
theorem build_failure_surfaces_log_on_double_only (platforms : Platforms)
    (s0 : CatalogState) (N : Nat) (i : Int) (d : Device)
    (hidx : usize i < (ensureDeviceList platforms s0).devices.length)
    (hd : (ensureDeviceList platforms s0).devices.getD (usize i) defaultDevice = d) :
    (∀ L, d.doubleFPConfig ≠ 0 →
      d.build .double = .err CL_BUILD_PROGRAM_FAILURE L →
      (construct platforms s0 N i .double).result =
        .error (.clError CL_BUILD_PROGRAM_FAILURE) ∧
      Event.print L ∈ (construct platforms s0 N i .double).events) ∧
    (∀ code L, d.build .float = .err code L →
      (construct platforms s0 N i .float).result = .error (.clError code) ∧
      (construct platforms s0 N i .float).events =
        [.print ("Using OpenCL device " ++ d.name),
         .print ("Driver: " ++ d.driver), .buildAttempt .float]) := by
  have h1 : ¬ ((ensureDeviceList platforms s0).devices.length ≤ usize i) := by omega
  refine ⟨fun L hfp hbuild => ?_, fun code L hbuild => ?_⟩
  · have hc : construct platforms s0 N i .double =
        ⟨ensureDeviceList platforms s0,
         [.print ("Using OpenCL device " ++ d.name),
          .print ("Driver: " ++ d.driver), .buildAttempt .double, .print L],
         .error (.clError CL_BUILD_PROGRAM_FAILURE)⟩ := by
      simp only [construct]
      rw [if_neg h1, hd, if_neg hfp, hbuild]
      rfl
    rw [hc]
    exact ⟨rfl, by simp⟩
  · have hc : construct platforms s0 N i .float =
        ⟨ensureDeviceList platforms s0,
         [.print ("Using OpenCL device " ++ d.name),
          .print ("Driver: " ++ d.driver), .buildAttempt .float],
         .error (.clError code)⟩ := by
      simp only [construct]
      rw [if_neg h1, hd, hbuild]
      rfl
    rw [hc]
    exact ⟨rfl, rfl⟩

theorem build_failure_surfaces_log_on_double_only_witness :
    (construct [[logDevice]] ⟨false, []⟩ 8 0 .double).result =
      .error (.clError CL_BUILD_PROGRAM_FAILURE) ∧
    Event.print "KERNEL BUILD LOG" ∈
      (construct [[logDevice]] ⟨false, []⟩ 8 0 .double).events :=
  (build_failure_surfaces_log_on_double_only [[logDevice]] ⟨false, []⟩ 8 0
      logDevice (by decide) rfl).1 "KERNEL BUILD LOG" (by decide) rfl

/-! ### C4: double-precision capability check -/

/-- C4: with the 64-bit element type, construction checks the resolved
device's `CL_DEVICE_DOUBLE_FP_CONFIG` before any build: if it is zero,
construction fails with the "Device does not support double precision,
please use --float" error without a build attempt appearing among the side
effects; and the 32-bit instantiation never fails with that error on any
input. -/
theorem double_precision_checked_before_build (platforms : Platforms)
    (s0 : CatalogState) (N : Nat) (i : Int) (d : Device)
    (hidx : usize i < (ensureDeviceList platforms s0).devices.length)
    (hd : (ensureDeviceList platforms s0).devices.getD (usize i) defaultDevice = d)
    (hfp : d.doubleFPConfig = 0) :
    (construct platforms s0 N i .double).result = .error .noDouble ∧
    (∀ t, Event.buildAttempt t ∉ (construct platforms s0 N i .double).events) ∧
    CtorError.noDouble.message =
      "Device does not support double precision, please use --float" ∧
    (∀ (q : Platforms) (r : CatalogState) (M : Nat) (j : Int),
      (construct q r M j .float).result ≠ .error .noDouble) := by
  have h1 : ¬ ((ensureDeviceList platforms s0).devices.length ≤ usize i) := by omega
  have hc : construct platforms s0 N i .double =
      ⟨ensureDeviceList platforms s0,
       [.print ("Using OpenCL device " ++ d.name),
        .print ("Driver: " ++ d.driver)],
       .error .noDouble⟩ := by
    simp only [construct]
    rw [if_neg h1, hd, if_pos hfp]
  refine ⟨by rw [hc], fun t ht => ?_, rfl,
    fun q r M j => construct_float_not_noDouble q r M j⟩
  rw [hc] at ht
  simp at ht

theorem double_precision_checked_before_build_witness :
    (construct [[noFP64Device]] ⟨false, []⟩ 8 0 .double).result =
      .error .noDouble ∧
    (∀ t, Event.buildAttempt t ∉
      (construct [[noFP64Device]] ⟨false, []⟩ 8 0 .double).events) :=
  let h := double_precision_checked_before_build [[noFP64Device]] ⟨false, []⟩
    8 0 noFP64Device (by decide) rfl rfl
  ⟨h.1, h.2.1⟩

/-! ### C5: memory capacity validation -/

/-- C5: once the device is resolved and the build has succeeded,
construction fails with one of the two insufficient-memory errors exactly
when `sizeof(T)*array_size` exceeds the device's maximum single allocation
or `3*sizeof(T)*array_size` exceeds its total global memory (the sum
buffer appears in neither inequality); on such a failure no buffer
allocation has happened, and when neither limit is exceeded construction
passes validation and succeeds. -/
theorem memory_validation (platforms : Platforms) (s0 : CatalogState)
    (N : Nat) (i : Int) (T : FType) (d : Device)
    (hidx : usize i < (ensureDeviceList platforms s0).devices.length)
    (hd : (ensureDeviceList platforms s0).devices.getD (usize i) defaultDevice = d)
    (hfp : T = .double → d.doubleFPConfig ≠ 0)
    (hbuild : d.build T = .ok) :
    ((∃ e, (construct platforms s0 N i T).result = .error e ∧
        (e = .cannotAlloc ∨ e = .notEnoughMem)) ↔
      (d.maxAllocSize < sizeofT T * N ∨
       d.globalMemSize < 3 * (sizeofT T * N))) ∧
    ((d.maxAllocSize < sizeofT T * N ∨
      d.globalMemSize < 3 * (sizeofT T * N)) →
      ∀ bytes, Event.alloc bytes ∉ (construct platforms s0 N i T).events) ∧
    (¬ (d.maxAllocSize < sizeofT T * N ∨
        d.globalMemSize < 3 * (sizeofT T * N)) →
      ∃ eng, (construct platforms s0 N i T).result = .ok eng) := by
  rw [construct_build_ok platforms s0 N i T d hidx hd hfp hbuild]
  unfold constructTail
  by_cases hm1 : d.maxAllocSize < sizeofT T * N
  · rw [if_pos hm1]
    refine ⟨⟨fun _ => Or.inl hm1, fun _ => ⟨.cannotAlloc, rfl, Or.inl rfl⟩⟩,
      fun _ bytes hbytes => ?_, fun hcon => absurd (Or.inl hm1) hcon⟩
    simp at hbytes
  · rw [if_neg hm1]
    by_cases hm2 : d.globalMemSize < 3 * (sizeofT T * N)
    · rw [if_pos hm2]
      refine ⟨⟨fun _ => Or.inr hm2, fun _ => ⟨.notEnoughMem, rfl, Or.inr rfl⟩⟩,
        fun _ bytes hbytes => ?_, fun hcon => absurd (Or.inr hm2) hcon⟩
      simp at hbytes
    · rw [if_neg hm2]
      refine ⟨⟨fun h => ?_, fun hcon => ?_⟩, fun hcon => ?_, fun _ => ⟨_, rfl⟩⟩
      · obtain ⟨e, he, _⟩ := h
        exact absurd he (by simp)
      · cases hcon <;> contradiction
      · cases hcon <;> contradiction

theorem memory_validation_witness :
    ∃ eng, (construct [[bigDevice]] ⟨false, []⟩ 8 0 .float).result = .ok eng :=
  (memory_validation [[bigDevice]] ⟨false, []⟩ 8 0 .float bigDevice
      (by decide) rfl (fun h => FType.noConfusion h) rfl).2.2 (by decide)

/-! ### C10: no divisibility validation -/

/-- C10: construction never checks that `array_size` is divisible by
`WGSIZE`: for every `array_size` passing the memory checks (whether or not
it is a multiple of `WGSIZE`, and even when smaller than `WGSIZE`)
construction succeeds, and the device sum buffer and the host partial-sum
vector both have exactly `array_size / WGSIZE` (integer division)
elements. -/
theorem no_divisibility_check (platforms : Platforms) (s0 : CatalogState)
    (N : Nat) (i : Int) (T : FType) (d : Device)
    (hidx : usize i < (ensureDeviceList platforms s0).devices.length)
    (hd : (ensureDeviceList platforms s0).devices.getD (usize i) defaultDevice = d)
    (hfp : T = .double → d.doubleFPConfig ≠ 0)
    (hbuild : d.build T = .ok)
    (hmem1 : ¬ d.maxAllocSize < sizeofT T * N)
    (hmem2 : ¬ d.globalMemSize < 3 * (sizeofT T * N)) :
    ∃ eng, (construct platforms s0 N i T).result = .ok eng ∧
      eng.array_size = N ∧ eng.d_sum.length = N / WGSIZE ∧
      eng.sums.length = N / WGSIZE := by
  rw [construct_build_ok platforms s0 N i T d hidx hd hfp hbuild]
  unfold constructTail
  rw [if_neg hmem1, if_neg hmem2]
  exact ⟨_, rfl, rfl, by simp, by simp⟩

theorem no_divisibility_check_witness :
    ∃ eng, (construct [[bigDevice]] ⟨false, []⟩ 10 0 .float).result = .ok eng ∧
      eng.array_size = 10 ∧ eng.d_sum.length = 10 / WGSIZE ∧
      eng.sums.length = 10 / WGSIZE :=
  no_divisibility_check [[bigDevice]] ⟨false, []⟩ 10 0 .float bigDevice
    (by decide) rfl (fun h => FType.noConfusion h) rfl (by decide) (by decide)

/-! ### C6: device index validation -/

theorem usize_of_nonneg {i : Int} (h0 : 0 ≤ i) (h1 : i < 2 ^ 31) :
    usize i = i.toNat := by
  unfold usize
  have e64 : (2 : ℤ) ^ 64 = 18446744073709551616 := by norm_num
  have e31 : (2 : ℤ) ^ 31 = 2147483648 := by norm_num
  rw [e64]
  rw [e31] at h1
  omega

theorem usize_of_neg {i : Int} (h0 : -2 ^ 31 ≤ i) (h1 : i < 0) :
    2 ^ 32 ≤ usize i := by
  unfold usize
  have e64 : (2 : ℤ) ^ 64 = 18446744073709551616 := by norm_num
  have e31 : (2 : ℤ) ^ 31 = 2147483648 := by norm_num
  have e32 : (2 : ℕ) ^ 32 = 4294967296 := by norm_num
  rw [e64, e32]
  rw [e31] at h0
  omega

/-- C6: with a device index in the C `int` range and a catalog of
realistic size, every index outside `[0, count)` — negative ones (which
wrap to huge values under the implicit signed-to-`size_t` conversion) and
every too-large one, including every index when the catalog is empty —
makes engine construction fail with the invalid-device error and the
name/driver lookups fail, while every index inside `[0, count)` makes the
lookups return the device's name and driver strings without failing. -/
theorem device_index_bounds (platforms : Platforms) (s0 : CatalogState)
    (i : Int) (hr0 : -2 ^ 31 ≤ i) (hr1 : i < 2 ^ 31)
    (hcount : (ensureDeviceList platforms s0).devices.length < 2 ^ 32) :
    ((i < 0 ∨ ((ensureDeviceList platforms s0).devices.length : Int) ≤ i) →
      (∀ N T, (construct platforms s0 N i T).result = .error .invalidDevice) ∧
      (getDeviceName platforms s0 i).2 =
        .error "Error asking for name for non-existant device" ∧
      (getDeviceDriver platforms s0 i).2 =
        .error "Error asking for driver for non-existant device") ∧
    (0 ≤ i → i < ((ensureDeviceList platforms s0).devices.length : Int) →
      (getDeviceName platforms s0 i).2 =
        .ok ((ensureDeviceList platforms s0).devices.getD i.toNat
          defaultDevice).name ∧
      (getDeviceDriver platforms s0 i).2 =
        .ok ((ensureDeviceList platforms s0).devices.getD i.toNat
          defaultDevice).driver) := by
  constructor
  · intro h
    have hout : (ensureDeviceList platforms s0).devices.length ≤ usize i := by
      rcases h with hneg | hge
      · have := usize_of_neg hr0 hneg
        omega
      · have h0 : 0 ≤ i := le_trans (Int.ofNat_nonneg _) hge
        have := usize_of_nonneg h0 hr1
        omega
    refine ⟨fun N T => ?_, ?_, ?_⟩
    · simp only [construct]
      rw [if_pos hout]
    · simp only [getDeviceName]
      rw [if_neg (not_lt.mpr hout)]
    · simp only [getDeviceDriver]
      rw [if_neg (not_lt.mpr hout)]
  · intro h0 h2
    have husz : usize i = i.toNat := usize_of_nonneg h0 hr1
    have hin : usize i < (ensureDeviceList platforms s0).devices.length := by
      omega
    constructor
    · simp only [getDeviceName]
      rw [if_pos hin, husz]
    · simp only [getDeviceDriver]
      rw [if_pos hin, husz]

theorem device_index_bounds_witness :
    (∀ N T, (construct [[d0]] ⟨false, []⟩ N (-1) T).result =
      .error .invalidDevice) ∧
    (getDeviceName [[d0]] ⟨false, []⟩ (-1)).2 =
      .error "Error asking for name for non-existant device" ∧
    (getDeviceDriver [[d0]] ⟨false, []⟩ (-1)).2 =
      .error "Error asking for driver for non-existant device" :=
  (device_index_bounds [[d0]] ⟨false, []⟩ (-1) (by norm_num) (by norm_num)
    (by decide)).1 (Or.inl (by norm_num))
